import Mathlib

/-!
Verification development for the identity and session-security core of the
Auth-service repository.

Shallow embedding of:
* `authentication/models.py` — `UserCredentials`, `RefreshToken`
* `authentication/jwt_utils.py` — token generation and verification
* `authentication/api.py` — the `login` and `refresh` endpoints
* `employees/models.py` — `Employee.save` identifier allocation and
  `EmployeeAssignment.save` composite-code regeneration
* `employees/notifications.py` — `send_employee_code_notification`

Conventions used throughout:
* Timestamps are natural numbers counting seconds; `timezone.now()` becomes an
  explicit `now` argument threaded through each operation.  `timedelta` spans
  are rendered in seconds (30 minutes = 1800, 1 hour = 3600, 7 days = 604800).
* Django UUID primary keys are abstracted as natural numbers.
* Django salted password hashing (`make_password` / `check_password`) is an
  external library; it is abstracted as an injective encoding of the raw
  password, so that `check_password` succeeds exactly on the stored password.
* A signed JWT is represented by its claim payload; signing and signature
  checking are abstracted away (every payload value represents a validly
  signed token), while the expiry check of `jwt.decode` is kept explicit.
* Python exceptions that the source code does not catch are surfaced as
  explicit `unhandled`/`Except.error` outcomes carrying the exception kind.
-/

deriving instance DecidableEq for Except

namespace AuthService

/-- Lockout span used by `UserCredentials.record_failed_login`:
`timedelta(minutes=30)` in seconds. -/
def lockoutSeconds : Nat := 30 * 60

/-- Models `django.contrib.auth.hashers.make_password`, abstracted as an injective
encoding of the raw password (salting is immaterial to the claims). -/
def make_password (raw : String) : String := "pbkdf2_sha256$" ++ raw

/-- Models `django.contrib.auth.hashers.check_password`: verification succeeds exactly
when the stored hash is the hash of the presented password. -/
def check_password (raw hashed : String) : Bool := hashed == make_password raw

/-- Row of `auth_user_credentials` (`UserCredentials` in
`authentication/models.py`).  `pk` abstracts the UUID primary key; `employee`
and `superadmin` are the two nullable one-to-one links. -/
structure UserCredentials where
  pk : Nat
  employee : Option Nat
  superadmin : Option Nat
  password_hash : String
  last_login : Option Nat
  last_login_ip : Option String
  password_changed_at : Nat
  failed_login_attempts : Nat
  locked_until : Option Nat
  is_deleted : Bool
  deriving DecidableEq

/-- Models `UserCredentials.set_password`: hash and set the password, reset the
failure counter, clear the lock. -/
def UserCredentials.set_password (c : UserCredentials) (now : Nat) (raw : String) :
    UserCredentials :=
  { c with
    password_hash := make_password raw
    password_changed_at := now
    failed_login_attempts := 0
    locked_until := none }

/-- Models `UserCredentials.is_locked`: locked iff `locked_until` is set and strictly
in the future. -/
def UserCredentials.is_locked (c : UserCredentials) (now : Nat) : Bool :=
  match c.locked_until with
  | some t => decide (now < t)
  | none => false

/-- Models `UserCredentials.record_failed_login`: increment the counter, and whenever
the incremented counter is at least 5, set `locked_until = now + 30 minutes`.
Note the source guard is `>= 5`, so the lock timestamp is rewritten on every
failure from the 5th onward. -/
def UserCredentials.record_failed_login (c : UserCredentials) (now : Nat) :
    UserCredentials :=
  let c1 := { c with failed_login_attempts := c.failed_login_attempts + 1 }
  if 5 ≤ c1.failed_login_attempts then
    { c1 with locked_until := some (now + lockoutSeconds) }
  else c1

/-- Models `UserCredentials.record_successful_login`: stamp the login, reset the
failure counter, clear the lock. -/
def UserCredentials.record_successful_login (c : UserCredentials) (now : Nat)
    (ip_address : Option String) : UserCredentials :=
  { c with
    last_login := some now
    last_login_ip := ip_address
    failed_login_attempts := 0
    locked_until := none }

/-- A fresh credential with no failures, as C1 starts from. -/
def freshCredential (pk eid : Nat) (hash : String) : UserCredentials :=
  { pk := pk
    employee := some eid
    superadmin := none
    password_hash := hash
    last_login := none
    last_login_ip := none
    password_changed_at := 0
    failed_login_attempts := 0
    locked_until := none
    is_deleted := false }

/-! ## Token service (`authentication/jwt_utils.py`)

A signed JWT is represented by its claim payload.  Claims that are present in
access tokens but absent from refresh tokens are `Option`-valued and `none`
when absent, matching `payload.get(..., default)` reads.  The `department_id`
display claim (the department UUID rendered as a string) is carried as the
department name's companion and is not read by any operation modelled here, so
it is omitted. -/
/-- Models `ACCESS_TOKEN_EXPIRY = timedelta(hours=1)` in seconds. -/
def accessTokenExpiry : Nat := 3600

/-- Models `REFRESH_TOKEN_EXPIRY = timedelta(days=7)` in seconds. -/
def refreshTokenExpiry : Nat := 7 * 24 * 3600

/-- Employee row as read by the authentication layer
(`employees/models.py::Employee`).  `email` is the `email` property
(`org_email or personal_email or ""`); `department_name` and
`designation_name` are the `department.dept_name` / `designation.position_name`
derived from the primary assignment, `none` when there is no primary
assignment. -/
structure Employee where
  id : Nat
  employee_id : String
  employee_code : String
  full_name : String
  email : String
  is_active : Bool
  is_deleted : Bool
  is_superadmin : Bool
  department_name : Option String
  designation_name : Option String
  deriving DecidableEq

/-- SuperAdmin row (`authentication/superadmin_models.py::SuperAdmin`).
The model defines no `is_superadmin` attribute. -/
structure SuperAdmin where
  id : Nat
  superadmin_code : String
  full_name : String
  email : String
  is_active : Bool
  is_deleted : Bool
  deriving DecidableEq

/-- The duck-typed `user` object flowing through `api.py`: an Employee or a
SuperAdmin instance. -/
inductive Principal where
  | emp (e : Employee)
  | sa (s : SuperAdmin)
  deriving DecidableEq

/-- Models `getattr(user, 'is_superadmin', False)`.  `Employee` has an
`is_superadmin` boolean field; `SuperAdmin` defines no such attribute, so the
`getattr` default `False` is returned for it. -/
def Principal.attr_is_superadmin : Principal → Bool
  | .emp e => e.is_superadmin
  | .sa _ => false

/-- Models `getattr(user, 'superadmin_code', None)`. -/
def Principal.attr_superadmin_code : Principal → Option String
  | .emp _ => none
  | .sa s => some s.superadmin_code

/-- Models `getattr(user, 'employee_code', None)`. -/
def Principal.attr_employee_code : Principal → Option String
  | .emp e => some e.employee_code
  | .sa _ => none

/-- Models `user.id`. -/
def Principal.pid : Principal → Nat
  | .emp e => e.id
  | .sa s => s.id

/-- Models `user.full_name`. -/
def Principal.full_name : Principal → String
  | .emp e => e.full_name
  | .sa s => s.full_name

/-- Models `user.email`. -/
def Principal.email : Principal → String
  | .emp e => e.email
  | .sa s => s.email

/-- Models `user.is_active`. -/
def Principal.is_active : Principal → Bool
  | .emp e => e.is_active
  | .sa s => s.is_active

/-- Python `a or b` on optional strings: `None` and the empty string are
falsy. -/
def pyOrStr : Option String → Option String → Option String
  | some s, b => if s = "" then b else some s
  | none, b => b

/-- JWT claim payload.  `is_superadmin`, `is_active` and the display claims
are present only in access tokens (`none` encodes an absent key, so
`payload.get('is_superadmin', False)` is `Option.getD · false`). -/
structure TokenPayload where
  user_id : Nat
  code : Option String
  full_name : Option String
  email : Option String
  is_superadmin : Option Bool
  is_active : Option Bool
  exp : Nat
  iat : Nat
  token_type : String
  jti : Nat
  employee_code : Option String
  employee_id : Option String
  department_name : Option String
  designation : Option String
  role : Option String
  deriving DecidableEq

/-- Models `generate_access_token(user, **kwargs)`: access payload with 1-hour
expiry.  The employee-specific display claims are added only when the user has
an `employee_code` attribute (i.e. is an Employee); the HDMS login's extra
`role=...` keyword argument is the only `kwargs` entry used by the source. -/
def generate_access_token (user : Principal) (now jti : Nat) (role : Option String) :
    TokenPayload :=
  { user_id := user.pid
    code := pyOrStr user.attr_superadmin_code user.attr_employee_code
    full_name := some user.full_name
    email := some user.email
    is_superadmin := some user.attr_is_superadmin
    is_active := some user.is_active
    exp := now + accessTokenExpiry
    iat := now
    token_type := "access"
    jti := jti
    employee_code := user.attr_employee_code
    employee_id := match user with | .emp e => some e.employee_id | .sa _ => none
    department_name :=
      match user with
      | .emp e => some (e.department_name.getD "N/A")
      | .sa _ => none
    designation :=
      match user with
      | .emp e => some (e.designation_name.getD "N/A")
      | .sa _ => none
    role := role }

/-- Models `generate_refresh_token(user)`: refresh payload with 7-day expiry; it
carries only `user_id`, `code`, `exp`, `iat`, `token_type` and `jti` — in
particular no `is_superadmin` key. -/
def generate_refresh_token (user : Principal) (now jti : Nat) : TokenPayload :=
  { user_id := user.pid
    code := pyOrStr user.attr_superadmin_code user.attr_employee_code
    full_name := none
    email := none
    is_superadmin := none
    is_active := none
    exp := now + refreshTokenExpiry
    iat := now
    token_type := "refresh"
    jti := jti
    employee_code := none
    employee_id := none
    department_name := none
    designation := none
    role := none }

/-- Models `decode_token` via `jwt.decode`: fails (raises, here `none`) when the
token is expired (`exp <= now`); signature validity is abstracted away. -/
def decode_token (token : TokenPayload) (now : Nat) : Option TokenPayload :=
  if now < token.exp then some token else none

/-- Models `verify_access_token`: decode, then reject any payload whose
`token_type` is not `"access"`; returns `(user_id, is_superadmin)`. -/
def verify_access_token (token : TokenPayload) (now : Nat) : Option (Nat × Bool) :=
  match decode_token token now with
  | none => none
  | some payload =>
    if payload.token_type ≠ "access" then none
    else some (payload.user_id, payload.is_superadmin.getD false)

/-- Models `verify_refresh_token`: decode, then reject any payload whose
`token_type` is not `"refresh"`. -/
def verify_refresh_token (token : TokenPayload) (now : Nat) : Option (Nat × Bool) :=
  match decode_token token now with
  | none => none
  | some payload =>
    if payload.token_type ≠ "refresh" then none
    else some (payload.user_id, payload.is_superadmin.getD false)

/-! ## Session registry (`authentication/models.py::RefreshToken`) -/
/-- Row of `auth_refresh_token`.  The model declares exactly the fields below:
a mandatory `employee` foreign key and **no** `superadmin` field. -/
structure RefreshTokenRow where
  employee : Nat
  token : TokenPayload
  created_at : Nat
  expires_at : Nat
  is_revoked : Bool
  device_info : Option String
  ip_address : Option String
  deriving DecidableEq

/-- Models `RefreshToken.is_expired`: `timezone.now() > expires_at`. -/
def RefreshTokenRow.is_expired (r : RefreshTokenRow) (now : Nat) : Bool :=
  decide (r.expires_at < now)

/-- Models `RefreshToken.is_valid`: not expired and not revoked. -/
def RefreshTokenRow.is_valid (r : RefreshTokenRow) (now : Nat) : Bool :=
  !(r.is_expired now) && !r.is_revoked

/-- The `TypeError` Django raises when `Model.__init__` receives a keyword
argument that is not a declared field — `RefreshToken` has no `superadmin`
field, yet `login` always passes a `superadmin=` keyword to
`RefreshToken.objects.create`. -/
def refreshCreateKwargError : String :=
  "TypeError: superadmin is an invalid keyword argument for RefreshToken"

/-- The `IntegrityError` for a null value in the mandatory `employee` column. -/
def refreshCreateNullEmployeeError : String :=
  "IntegrityError: RefreshToken.employee may not be null"

/-- Models `RefreshToken.objects.create(...)`.  `superadmin_kwarg_present` records
whether the call site passes a `superadmin=` keyword (the `/login` and
`/login-sis` endpoints always do, whatever its value); since the model has no
such field this raises `TypeError` before anything is written. -/
def refreshTokenCreate (employee : Option Nat) (superadmin_kwarg_present : Bool)
    (token : TokenPayload) (now expires_at : Nat)
    (device_info ip_address : Option String) : Except String RefreshTokenRow :=
  if superadmin_kwarg_present then .error refreshCreateKwargError
  else
    match employee with
    | none => .error refreshCreateNullEmployeeError
    | some eid =>
      .ok { employee := eid
            token := token
            created_at := now
            expires_at := expires_at
            is_revoked := false
            device_info := device_info
            ip_address := ip_address }

/-! ## AuthGateway (`authentication/api.py`) -/
/-- The persistent state consulted by the auth endpoints. -/
structure AuthDB where
  employees : List Employee
  superadmins : List SuperAdmin
  credentials : List UserCredentials
  refresh_tokens : List RefreshTokenRow
  deriving DecidableEq

/-- The `employee` dict of a 200 login response. -/
structure UserInfo where
  id : Nat
  code : Option String
  full_name : String
  is_superadmin : Bool
  employee_id : Option String
  department : Option String
  designation : Option String
  deriving DecidableEq

/-- Outcome of the `login` endpoint: a 200 payload, a typed error response
(status, `error`, `detail`), or an uncaught Python exception. -/
inductive LoginOutcome where
  | ok (access_token refresh_token : TokenPayload) (expires_in : Nat)
      (employee : UserInfo)
  | err (status : Nat) (error : String) (detail : String)
  | unhandled (exn : String)
  deriving DecidableEq

/-- HTTP status of a login outcome (500 for an uncaught exception). -/
def LoginOutcome.statusCode : LoginOutcome → Nat
  | .ok _ _ _ _ => 200
  | .err s _ _ => s
  | .unhandled _ => 500

/-- The `ValueError` Django raises when a relational filter receives a model
instance of the wrong type: filtering `UserCredentials.employee` with a
`SuperAdmin` instance. -/
def mustBeEmployeeInstanceError : String :=
  "ValueError: Cannot query credentials: Must be Employee instance"

/-- Same, for filtering `UserCredentials.superadmin` with an `Employee`
instance. -/
def mustBeSuperAdminInstanceError : String :=
  "ValueError: Cannot query credentials: Must be SuperAdmin instance"

/-- Rendering of `locked_until` inside the 423 detail f-string. -/
def showLockedUntil : Option Nat → String
  | some t => toString t
  | none => "None"

/-- Write back a mutated credentials row (`credentials.save()`). -/
def updateCredential (db : AuthDB) (c : UserCredentials) : AuthDB :=
  { db with credentials := db.credentials.map (fun x => if x.pk == c.pk then c else x) }

/-- The user summary dict built for a 200 login response.  The
employee-specific keys are added only when `is_superadmin` is false; for a
`SuperAdmin` principal that branch would raise `AttributeError`, but it is
unreachable (the refresh-row creation on line 180 of `api.py` raises first). -/
def mkUserInfo (user : Principal) : UserInfo :=
  { id := user.pid
    code := pyOrStr user.attr_superadmin_code user.attr_employee_code
    full_name := user.full_name
    is_superadmin := user.attr_is_superadmin
    employee_id :=
      if user.attr_is_superadmin then none
      else match user with | .emp e => some e.employee_id | .sa _ => none
    department :=
      if user.attr_is_superadmin then none
      else match user with | .emp e => e.department_name | .sa _ => none
    designation :=
      if user.attr_is_superadmin then none
      else match user with | .emp e => e.designation_name | .sa _ => none }

/-- The `POST /api/auth/login` endpoint (`api.py::login`), step for step:
employee lookup, then superadmin lookup; credentials lookup keyed on
`getattr(user, 'is_superadmin', False)`; lock check; password check with
failure recording; success recording; token generation; refresh-token row
creation; response assembly.  Returns the mutated database and the outcome. -/
def login (db : AuthDB) (now : Nat) (employee_code password : String)
    (client_ip : Option String) (user_agent : String) (jti_access jti_refresh : Nat) :
    AuthDB × LoginOutcome :=
  let user? : Option Principal :=
    match db.employees.find?
        (fun e => e.employee_code == employee_code && e.is_active && !e.is_deleted) with
    | some e => some (.emp e)
    | none =>
      match db.superadmins.find?
          (fun s => s.superadmin_code == employee_code && s.is_active && !s.is_deleted) with
      | some s => some (.sa s)
      | none => none
  match user? with
  | none => (db, .err 401 "Invalid credentials" "User not found or account inactive")
  | some user =>
    let is_superadmin := user.attr_is_superadmin
    let cred_lookup : Except String (Option UserCredentials) :=
      if is_superadmin then
        match user with
        | .sa s => .ok (db.credentials.find? (fun c => c.superadmin == some s.id && !c.is_deleted))
        | .emp _ => .error mustBeSuperAdminInstanceError
      else
        match user with
        | .emp e => .ok (db.credentials.find? (fun c => c.employee == some e.id && !c.is_deleted))
        | .sa _ => .error mustBeEmployeeInstanceError
    match cred_lookup with
    | .error e => (db, .unhandled e)
    | .ok none => (db, .err 401 "Invalid credentials" "No credentials found for this user")
    | .ok (some credentials) =>
      if credentials.is_locked now then
        (db, .err 423 "Account locked"
          ("Too many failed attempts. Try again after " ++ showLockedUntil credentials.locked_until))
      else if !(check_password password credentials.password_hash) then
        (updateCredential db (credentials.record_failed_login now),
          .err 401 "Invalid credentials" "Incorrect password")
      else
        let db1 := updateCredential db (credentials.record_successful_login now client_ip)
        let access_token := generate_access_token user now jti_access none
        let refresh_token := generate_refresh_token user now jti_refresh
        match refreshTokenCreate
            (if !is_superadmin then some user.pid else none) true
            refresh_token now (now + refreshTokenExpiry)
            (some (user_agent.take 255)) client_ip with
        | .error e => (db1, .unhandled e)
        | .ok row =>
          ({ db1 with refresh_tokens := db1.refresh_tokens ++ [row] },
            .ok access_token refresh_token 3600 (mkUserInfo user))

/-- Outcome of the `refresh` endpoint. -/
inductive RefreshOutcome where
  | ok (access_token : TokenPayload) (expires_in : Nat)
  | err (status : Nat) (error : String) (detail : String)
  deriving DecidableEq

/-- HTTP status of a refresh outcome. -/
def RefreshOutcome.statusCode : RefreshOutcome → Nat
  | .ok _ _ => 200
  | .err s _ _ => s

/-- The access token issued by a refresh outcome, if any. -/
def RefreshOutcome.issued : RefreshOutcome → Option TokenPayload
  | .ok t _ => some t
  | .err _ _ _ => none

/-- The `FieldError` raised by filtering `RefreshToken` on the nonexistent
`superadmin` relation; the endpoint's catch-all turns it into a 401. -/
def refreshSuperadminFieldError : String :=
  "FieldError: cannot resolve keyword superadmin into field of RefreshToken"

/-- The `POST /api/auth/refresh` endpoint (`api.py::refresh_token`):
cryptographic verification, registry lookup (both presence and
`is_valid`), user re-resolution, then a fresh access token.  Every branch of
the source is wrapped in a try/except that collapses uncaught exceptions to a
401, so the outcome type has no unhandled case. -/
def refresh (db : AuthDB) (now : Nat) (refresh_tok : TokenPayload) (jti_access : Nat) :
    RefreshOutcome :=
  match verify_refresh_token refresh_tok now with
  | none => .err 401 "Invalid refresh token" "Token is invalid or expired"
  | some (user_id, is_superadmin) =>
    if is_superadmin then
      .err 401 "Refresh failed" refreshSuperadminFieldError
    else
      match db.refresh_tokens.find?
          (fun r => decide (r.token = refresh_tok) && r.employee == user_id) with
      | none => .err 401 "Invalid refresh token" "Token not found in database"
      | some row =>
        if !(row.is_valid now) then
          .err 401 "Invalid refresh token" "Token has been revoked or expired"
        else
          match db.employees.find? (fun e => e.id == user_id && e.is_active && !e.is_deleted) with
          | none => .err 401 "User not found" "Account is inactive or deleted"
          | some e => .ok (generate_access_token (.emp e) now jti_access none) 3600

/-- Concrete employee used by the C4 witness. -/
def c4Employee : Employee :=
  ⟨1, "IAK-0001", "AKF-G-25-T-0001", "Test User", "", true, false, false, none, none⟩

/-- Database for the C4 witness: the refresh-token registry is empty, so the
cryptographically valid refresh token below has no registry row. -/
def c4Db : AuthDB := ⟨[c4Employee], [], [], []⟩

/-- A genuine refresh token for the C4 witness, issued at time 0. -/
def c4Token : TokenPayload := generate_refresh_token (.emp c4Employee) 0 7

/-- Concrete employee for the C2 scenario. -/
def c2Employee : Employee :=
  ⟨1, "IAK-0001", "AKF-G-25-T-0001", "Test User", "", true, false, false,
    some "HR", some "Teacher"⟩

/-- Credential for the C2 scenario: unlocked, `failed_login_attempts = 4`. -/
def c2Credential : UserCredentials :=
  ⟨1, some 1, none, make_password "correct-pass", none, none, 0, 4, none, false⟩

/-- Database for the C2 scenario. -/
def c2Db : AuthDB := ⟨[c2Employee], [], [c2Credential], []⟩

/-- Concrete employee for the C9 scenario. -/
def c9Employee : Employee :=
  ⟨2, "IAK-0002", "EMP-CODE-9", "Nine User", "", true, false, false, none, none⟩

/-- Credential for the C9 scenario. -/
def c9Credential : UserCredentials :=
  ⟨2, some 2, none, make_password "secret9", none, none, 0, 0, none, false⟩

/-- Database for the C9 scenario. -/
def c9Db : AuthDB := ⟨[c9Employee], [], [c9Credential], []⟩

/-- Concrete superadmin for the C10 scenario. -/
def c10SuperAdmin : SuperAdmin := ⟨5, "S-25-0001", "Root Admin", "root@example.org", true, false⟩

/-- Credential row linked to the superadmin, unlocked, with the correct
password stored. -/
def c10Credential : UserCredentials :=
  ⟨3, none, some 5, make_password "superpw", none, none, 0, 0, none, false⟩

/-- Database for the C10 scenario. -/
def c10Db : AuthDB := ⟨[], [c10SuperAdmin], [c10Credential], []⟩

end AuthService

namespace Employees

/-! ## Identifier allocation (`employees/models.py::Employee.save`)

`Employee.save` allocates `employee_id` when it is blank:
take `Employee.all_objects.all().order_by('employee_id').last()` (the maximum
existing `employee_id` in Python string order, soft-deleted rows included),
parse its numeric suffix, add one, and render as `IAK-` plus the number
zero-padded to 4 digits while it is below 10000 and at natural width
afterwards.  The state relevant to allocation is the list of existing
`employee_id` strings. -/
/-- Python string comparison: lexicographic on code points. -/
def pyCharsLt : List Char → List Char → Bool
  | [], [] => false
  | [], _ :: _ => true
  | _ :: _, [] => false
  | a :: as, b :: bs =>
    if a.toNat < b.toNat then true
    else if b.toNat < a.toNat then false
    else pyCharsLt as bs

/-- Python `<` on strings. -/
def pyStrLt (a b : String) : Bool := pyCharsLt a.toList b.toList

/-- Python `str.split('-')` on a character list. -/
def splitOnDash : List Char → List (List Char)
  | [] => [[]]
  | c :: rest =>
    let r := splitOnDash rest
    if c = '-' then [] :: r
    else
      match r with
      | [] => [[c]]
      | g :: gs => (c :: g) :: gs

/-- Python `int(s)` on the decimal-digit strings that identifier suffixes
are; `none` models the `ValueError` on anything else. -/
def pyIntOfChars : List Char → Option Nat
  | [] => none
  | cs =>
    if cs.all (fun c => 48 ≤ c.toNat && c.toNat ≤ 57) then
      some (cs.foldl (fun n c => n * 10 + (c.toNat - 48)) 0)
    else none

/-- Models `order_by('employee_id').last()`: the maximum existing id in Python
string order (`none` on an empty table). -/
def lastByEmployeeId (ids : List String) : Option String :=
  ids.foldl
    (fun acc s =>
      match acc with
      | none => some s
      | some m => if pyStrLt m s then some s else some m)
    none

/-- Models `f"{num:0{padding}d}"`: decimal rendering zero-padded to `width`. -/
def padZeros (width n : Nat) : String :=
  let s := toString n
  String.mk (List.replicate (width - s.length) '0') ++ s

/-- The id allocated by `Employee.save` given the existing ids:
`int(last.employee_id.split('-')[-1]) + 1` (1 when the table is empty or the
stored id is blank), padded to 4 digits below 10000 and natural width from
10000 on.  `none` models the uncaught `ValueError` of `int()` on a
non-numeric suffix. -/
def nextEmployeeId (existing_ids : List String) : Option String :=
  let num? : Option Nat :=
    match lastByEmployeeId existing_ids with
    | none => some 1
    | some last =>
      if last = "" then some 1
      else (pyIntOfChars ((splitOnDash last.toList).getLastD [])).map (· + 1)
  num?.map (fun num =>
    let padding := if num < 10000 then 4 else (toString num).length
    "IAK-" ++ padZeros padding num)

/-! ## Assignment save and composite code
(`employees/models.py::EmployeeAssignment.save`, `Department`,
`employees/notifications.py`) -/
/-- The fields of `Department` read by code composition: `institution` is the
department's own institution foreign key (`is_global` iff it is null);
`organization` carries the owning organization's `org_code` when the
`organization` foreign key is set. -/
structure Department where
  dept_code : String
  institution : Option Nat
  organization : Option String
  deriving DecidableEq

/-- Models `Department.is_global`: the department has no institution. -/
def Department.is_global (d : Department) : Bool := d.institution.isNone

/-- The `Employee` fields read and written by `EmployeeAssignment.save`. -/
structure EmployeeRec where
  id : Nat
  employee_id : String
  employee_code : String
  deriving DecidableEq

/-- Row of `EmployeeAssignment`.  `branch` and `institution` carry the
`branch_code` / `inst_code` of the respective nullable foreign keys. -/
structure Assignment where
  pk : Nat
  employee : Nat
  branch : Option String
  institution : Option String
  department : Department
  position_code : String
  joining_year : Nat
  is_primary : Bool
  is_active : Bool
  shift : String
  is_deleted : Bool
  deriving DecidableEq

/-- The state touched by `EmployeeAssignment.save`. -/
structure HrState where
  employees : List EmployeeRec
  assignments : List Assignment
  deriving DecidableEq

/-- The `prefix` computation of `EmployeeAssignment.save`: department code
when the department is global, otherwise branch code, else institution code,
else the owning organization's code when set, else the department code. -/
def resolveUnitCode (dept : Department) (branch institution : Option String) : String :=
  if dept.is_global then dept.dept_code
  else
    match branch with
    | some b => b
    | none =>
      match institution with
      | some i => i
      | none =>
        match dept.organization with
        | some o => o
        | none => dept.dept_code

/-- The unit-code resolution in the words of claim C6: branch code if the
assignment has a branch, else institution code, else owning-organization
code, else department code. -/
def resolveUnitCodeClaim (dept : Department) (branch institution : Option String) : String :=
  match branch with
  | some b => b
  | none =>
    match institution with
    | some i => i
    | none =>
      match dept.organization with
      | some o => o
      | none => dept.dept_code

/-- The unit-code resolution in the words of the amended claim C6: the
department code whenever the department is global (institution-less),
regardless of branch; otherwise the first available of branch code,
institution code, owning-organization code, department code. -/
def resolveUnitCodeAmended (dept : Department) (branch institution : Option String) : String :=
  if dept.is_global then dept.dept_code
  else ((branch.orElse fun _ => institution).orElse fun _ => dept.organization).getD dept.dept_code

/-- Models `self.shift[0].upper() if self.shift != 'general' else 'G'`; `none`
models the `IndexError` on an empty shift string. -/
def shiftCode (shift : String) : Option Char :=
  if shift = "general" then some 'G'
  else shift.toList.head?.map Char.toUpper

/-- Models `str(...)[-2:]`: the last two characters (the whole string when shorter). -/
def lastTwo (s : String) : String := String.mk (s.toList.drop (s.length - 2))

/-- The composite code built by `EmployeeAssignment.save`:
`{prefix}-{shift_code}-{year}-{role}-{seq}` where `seq` is the numeric
suffix of the employee's organization-wide `employee_id`. -/
def composeAssignmentCode (emp : EmployeeRec) (a : Assignment) : Option String :=
  (shiftCode a.shift).map fun sc =>
    resolveUnitCode a.department a.branch a.institution ++ "-" ++ String.singleton sc ++ "-" ++
      lastTwo (toString a.joining_year) ++ "-" ++ a.position_code ++ "-" ++
      String.mk ((splitOnDash emp.employee_id.toList).getLastD [])

/-- Number of parameters of
`employees/notifications.py::send_employee_code_notification(employee,
old_code, new_code)`. -/
def sendEmployeeCodeNotificationParamCount : Nat := 3

/-- Number of positional arguments at the call site in
`EmployeeAssignment.save`:
`send_employee_code_notification(self.employee, new_code)`. -/
def saveNotificationCallArgCount : Nat := 2

/-- The `TypeError` Python raises when a call supplies fewer positional
arguments than the callee's required parameters. -/
def notificationTypeError : String :=
  "TypeError: send_employee_code_notification missing 1 required positional argument"

/-- The notification call as made by `EmployeeAssignment.save`: Python binds
the positional arguments to the parameters and raises `TypeError` on a
mismatch, before the function body (whose `send_mail` uses
`fail_silently=True`) could even run. -/
def callEmployeeCodeNotification : Except String Unit :=
  if saveNotificationCallArgCount = sendEmployeeCodeNotificationParamCount then .ok ()
  else .error notificationTypeError

/-- Effect of the demotion `update` on one row: rows of the same employee
other than the one being saved (and not soft-deleted, since the default
manager filters those out) lose `is_primary`. -/
def demoteF (a r : Assignment) : Assignment :=
  if r.employee == a.employee && r.pk != a.pk && !r.is_deleted then
    { r with is_primary := false }
  else r

/-- The demotion pass of `EmployeeAssignment.save`:
`EmployeeAssignment.objects.filter(employee=self.employee).exclude(pk=self.pk).update(is_primary=False)`. -/
def demoteOthers (a : Assignment) (rows : List Assignment) : List Assignment :=
  rows.map (demoteF a)

/-- Row replacement used when the saved primary key already exists. -/
def upsertF (a r : Assignment) : Assignment := if r.pk == a.pk then a else r

/-- Models `super().save()`: update the row with this primary key, or insert. -/
def upsertAssignment (rows : List Assignment) (a : Assignment) : List Assignment :=
  if rows.any (fun r => r.pk == a.pk) then rows.map (upsertF a)
  else rows ++ [a]

/-- The code-regeneration block of `EmployeeAssignment.save`, run only for a
primary assignment: resolve `self.employee`, compose the code, and when it
differs from the stored one persist it on the employee
(`employee.save(update_fields=['employee_code'])`) and then make the
notification call — whose two-argument form raises `TypeError`.  Returns the
(possibly updated) employees table and the outcome; mutations performed
before an exception persist, since each `.save()` has already committed. -/
def assignmentCodeRegeneration (employees : List EmployeeRec) (a : Assignment) :
    List EmployeeRec × Except String Unit :=
  match employees.find? (fun e => e.id == a.employee) with
  | none => (employees, .error "RelatedObjectDoesNotExist: Assignment has no employee")
  | some emp =>
    match composeAssignmentCode emp a with
    | none => (employees, .error "IndexError: string index out of range")
    | some new_code =>
      if emp.employee_code ≠ new_code then
        let employees2 := employees.map fun e =>
          if e.id == emp.id then { e with employee_code := new_code } else e
        match callEmployeeCodeNotification with
        | .error e => (employees2, .error e)
        | .ok _ => (employees2, .ok ())
      else (employees, .ok ())

/-- Models `EmployeeAssignment.save`, step for step: demote the employee's other
assignments when saving a primary; write the row (`super().save()`); when
primary, run the code-regeneration block. -/
def employeeAssignmentSave (st : HrState) (a : Assignment) : HrState × Except String Unit :=
  let rows2 := upsertAssignment (if a.is_primary then demoteOthers a st.assignments else st.assignments) a
  let regen :=
    if a.is_primary then assignmentCodeRegeneration st.employees a
    else (st.employees, Except.ok ())
  ({ employees := regen.1, assignments := rows2 }, regen.2)

/-- The employee's stored composite code in a state. -/
def employeeCodeOf (st : HrState) (eid : Nat) : Option String :=
  (st.employees.find? (fun e => e.id == eid)).map (·.employee_code)

/-- Whether a row is a primary assignment of employee `e` visible to
`Employee.primary_assignment` (which reads through the soft-delete manager). -/
def isPrimaryFor (e : Nat) (r : Assignment) : Bool :=
  r.employee == e && !r.is_deleted && r.is_primary

/-- Number of `is_primary=true` assignments of one employee among the
non-deleted rows (the rows `Employee.primary_assignment` can see). -/
def primaryCount (e : Nat) (rows : List Assignment) : Nat :=
  rows.countP (isPrimaryFor e)

/-- A sequence of `EmployeeAssignment.save` calls, threading the state. -/
def saveSeq (st : HrState) : List Assignment → HrState
  | [] => st
  | a :: rest => saveSeq (employeeAssignmentSave st a).1 rest

/-! ### Claim C6 -/
/-- A global (institution-less) department owned by organization `AKF`. -/
def c6Dept : Department := ⟨"HR", none, some "AKF"⟩

/-- Employee for the C6 scenario, with no stored composite code yet. -/
def c6Emp : EmployeeRec := ⟨1, "IAK-0001", ""⟩

/-- A primary assignment that has a branch (`C01`) but whose department is
global. -/
def c6Assign : Assignment := ⟨1, 1, some "C01", none, c6Dept, "T", 2025, true, true, "general", false⟩

/-- State for the C6 scenario. -/
def c6State : HrState := ⟨[c6Emp], []⟩

/-! ### Claim C7 -/
/-- A non-global department for the C7 scenario. -/
def c7Dept : Department := ⟨"ACAD", some 9, some "AKF"⟩

/-- Employee for the C7 scenario, with a stored code from branch `C01`. -/
def c7Emp : EmployeeRec := ⟨1, "IAK-0001", "C01-G-25-T-0001"⟩

/-- State for the C7 scenario. -/
def c7State : HrState := ⟨[c7Emp], []⟩

/-- A primary assignment moving the employee to branch `C02` on the morning
shift. -/
def c7Assign : Assignment := ⟨1, 1, some "C02", none, c7Dept, "T", 2025, true, true, "morning", false⟩

/-! ### Claim C5 -/
/-- A department for the C5 scenario. -/
def c5Dept : Department := ⟨"HR", none, none⟩

/-- An explicitly non-primary assignment for employee 7. -/
def c5NonPrimary : Assignment := ⟨1, 7, none, none, c5Dept, "T", 2025, false, true, "general", false⟩

/-- Invariant carried by every state reachable by a sequence of saves:
distinct primary keys and at most one primary per employee. -/
def GoodRows (rows : List Assignment) : Prop :=
  (rows.map (·.pk)).Nodup ∧ ∀ e, primaryCount e rows ≤ 1

/-- A primary assignment used by the C5 witness. -/
def c5Primary : Assignment := ⟨2, 7, none, none, c5Dept, "T", 2025, true, true, "general", false⟩

end Employees

namespace AuthService

/-- Claim C1 (counterexample): starting unlocked with `failed_attempts = 0`,
five consecutive `record_failed_login` calls at times 0,60,...,240 lock the
account with `locked_until = 240 + 1800`; but a 6th failure at time 300,
while still locked, rewrites `locked_until` to `300 + 1800`, so the claim
that the 6th failure leaves `locked_until` unchanged is false. -/
theorem c1_sixth_failure_extends_lock :
    ((((((freshCredential 1 1 "h").record_failed_login 0).record_failed_login 60).record_failed_login
        120).record_failed_login 180).record_failed_login 240).is_locked 300 = true ∧
    ((((((freshCredential 1 1 "h").record_failed_login 0).record_failed_login 60).record_failed_login
        120).record_failed_login 180).record_failed_login 240).locked_until = some 2040 ∧
    (((((((freshCredential 1 1 "h").record_failed_login 0).record_failed_login 60).record_failed_login
        120).record_failed_login 180).record_failed_login 240).record_failed_login 300).failed_login_attempts = 6 ∧
    (((((((freshCredential 1 1 "h").record_failed_login 0).record_failed_login 60).record_failed_login
        120).record_failed_login 180).record_failed_login 240).record_failed_login 300).locked_until = some 2100 ∧
    some (2100 : Nat) ≠ some 2040 := by decide

/-- Claim C1 (amended): after exactly 5 consecutive `record_failed_login`
calls with no intervening reset, the credential is locked with
`locked_until` equal to the 5th failure time plus 30 minutes; a 6th failure
while locked increments the counter and additionally rewrites `locked_until`
to the 6th failure time plus 30 minutes, extending the lockout window
whenever the 6th failure is later than the 5th. -/
theorem c1_lockout_threshold (t1 t2 t3 t4 t5 t6 pk eid : Nat) (hash : String) :
    (((((((freshCredential pk eid hash).record_failed_login t1).record_failed_login
        t2).record_failed_login t3).record_failed_login t4).record_failed_login
        t5).failed_login_attempts = 5) ∧
    ((((((freshCredential pk eid hash).record_failed_login t1).record_failed_login
        t2).record_failed_login t3).record_failed_login t4).record_failed_login
        t5).locked_until = some (t5 + lockoutSeconds) ∧
    ((((((freshCredential pk eid hash).record_failed_login t1).record_failed_login
        t2).record_failed_login t3).record_failed_login t4).record_failed_login
        t5).is_locked t5 = true ∧
    (((((((freshCredential pk eid hash).record_failed_login t1).record_failed_login
        t2).record_failed_login t3).record_failed_login t4).record_failed_login
        t5).record_failed_login t6).failed_login_attempts = 6 ∧
    (((((((freshCredential pk eid hash).record_failed_login t1).record_failed_login
        t2).record_failed_login t3).record_failed_login t4).record_failed_login
        t5).record_failed_login t6).locked_until = some (t6 + lockoutSeconds) := by
  simp [freshCredential, UserCredentials.record_failed_login,
    UserCredentials.is_locked, lockoutSeconds]

/-! ## Claims about the token service and the auth endpoints -/
/-- Claim C8: a token produced by `generate_refresh_token` is rejected
(`none`) by `verify_access_token`, and a token produced by
`generate_access_token` is rejected by `verify_refresh_token` — a well-formed
token of the wrong type never verifies, at any verification time. -/
theorem c8_token_type_isolation (user : Principal) (now iat jti : Nat) (role : Option String) :
    verify_access_token (generate_refresh_token user iat jti) now = none ∧
    verify_refresh_token (generate_access_token user iat jti role) now = none := by
  constructor
  · simp only [verify_access_token, decode_token, generate_refresh_token]
    by_cases h : now < iat + refreshTokenExpiry <;> simp [h]
  · simp only [verify_refresh_token, decode_token, generate_access_token]
    by_cases h : now < iat + accessTokenExpiry <;> simp [h]

/-- Claim C4: a refresh call with a token that verifies cryptographically as a
refresh token, but whose registry row is absent, revoked, or past
`expires_at`, is rejected with a 401 and issues no access token. -/
theorem c4_refresh_dual_validity (db : AuthDB) (now jti uid : Nat) (isSa : Bool)
    (tok : TokenPayload)
    (hverify : verify_refresh_token tok now = some (uid, isSa))
    (hreg : ∀ r ∈ db.refresh_tokens, r.token = tok → r.employee = uid →
      r.is_revoked = true ∨ r.expires_at < now) :
    (refresh db now tok jti).statusCode = 401 ∧ (refresh db now tok jti).issued = none := by
  unfold refresh
  rw [hverify]
  cases isSa with
  | true => simp [RefreshOutcome.statusCode, RefreshOutcome.issued]
  | false =>
    simp only [Bool.false_eq_true, if_false]
    cases hfind : db.refresh_tokens.find?
        (fun r => decide (r.token = tok) && r.employee == uid) with
    | none => simp [hfind, RefreshOutcome.statusCode, RefreshOutcome.issued]
    | some row =>
      have hmem := List.mem_of_find?_eq_some hfind
      have hp := List.find?_some hfind
      simp only [Bool.and_eq_true, decide_eq_true_eq, beq_iff_eq] at hp
      have hbad := hreg row hmem hp.1 hp.2
      have hval : row.is_valid now = false := by
        simp only [RefreshTokenRow.is_valid, RefreshTokenRow.is_expired]
        rcases hbad with h | h <;> simp [h]
      simp [hfind, hval, RefreshOutcome.statusCode, RefreshOutcome.issued]

/-- Witness for C4: the concrete refresh call with a valid token and an empty
registry is rejected with 401 and no access token. -/
theorem c4_refresh_dual_validity_witness :
    (refresh c4Db 5 c4Token 9).statusCode = 401 ∧ (refresh c4Db 5 c4Token 9).issued = none :=
  c4_refresh_dual_validity c4Db 5 9 1 false c4Token (by decide) (by simp [c4Db])

/-- Claim C2 (counterexample): with `failed_attempts = 4`, not locked, one
more wrong-password login returns the 401 invalid-credentials outcome, not
the claimed 423 locked outcome — the lock check precedes the password check,
so the lock installed by this very failure is only seen by the next request.
The updated row shows the credential did become locked. -/
theorem c2_fifth_wrong_password_returns_invalid_not_locked :
    (login c2Db 1000 "AKF-G-25-T-0001" "wrong" none "" 1 2).2 =
      .err 401 "Invalid credentials" "Incorrect password" ∧
    (login c2Db 1000 "AKF-G-25-T-0001" "wrong" none "" 1 2).2.statusCode ≠ 423 ∧
    (login c2Db 1000 "AKF-G-25-T-0001" "wrong" none "" 1 2).1.credentials =
      [{ c2Credential with failed_login_attempts := 5, locked_until := some 2800 }] := by
  decide

/-- Claim C2 (amended): the fifth consecutive wrong-password attempt returns
the 401 invalid-credentials outcome, and as a side effect locks the
credential (`failed_attempts = 5`, `locked_until = now + 30 min`), so any
subsequent attempt before `now + 30 min` finds `is_locked` true (and would
take the 423 branch). -/
theorem c2_amended_fifth_failure_locks_for_next_attempt (db : AuthDB) (now j1 j2 : Nat)
    (code password : String) (ip : Option String) (ua : String)
    (emp : Employee) (cred : UserCredentials)
    (hemp : db.employees.find?
      (fun e => e.employee_code == code && e.is_active && !e.is_deleted) = some emp)
    (hsa : emp.is_superadmin = false)
    (hcred : db.credentials.find?
      (fun c => c.employee == some emp.id && !c.is_deleted) = some cred)
    (hnotlocked : cred.is_locked now = false)
    (hwrong : check_password password cred.password_hash = false)
    (hfour : cred.failed_login_attempts = 4) :
    (login db now code password ip ua j1 j2).2 =
      .err 401 "Invalid credentials" "Incorrect password" ∧
    (cred.record_failed_login now).failed_login_attempts = 5 ∧
    (cred.record_failed_login now).locked_until = some (now + lockoutSeconds) ∧
    (∀ t, t < now + lockoutSeconds → (cred.record_failed_login now).is_locked t = true) := by
  refine ⟨?_, ?_, ?_, ?_⟩
  · simp only [login, hemp]
    simp [Principal.attr_is_superadmin, hsa, hcred, hnotlocked, hwrong]
  · simp [UserCredentials.record_failed_login, hfour]
  · simp [UserCredentials.record_failed_login, hfour]
  · intro t ht
    simp [UserCredentials.record_failed_login, hfour, UserCredentials.is_locked, ht]

/-- Witness for the amended C2, on the concrete scenario, with the follow-up
lock check instantiated at time 2000 (inside the 30-minute window). -/
theorem c2_amended_fifth_failure_locks_witness :
    (login c2Db 1000 "AKF-G-25-T-0001" "wrong" none "" 1 2).2 =
      .err 401 "Invalid credentials" "Incorrect password" ∧
    (c2Credential.record_failed_login 1000).failed_login_attempts = 5 ∧
    (c2Credential.record_failed_login 1000).locked_until = some (1000 + lockoutSeconds) ∧
    (c2Credential.record_failed_login 1000).is_locked 2000 = true := by
  have h := c2_amended_fifth_failure_locks_for_next_attempt c2Db 1000 1 2
    "AKF-G-25-T-0001" "wrong" none "" c2Employee c2Credential
    (by decide) (by decide) (by decide) (by decide) (by decide) (by decide)
  exact ⟨h.1, h.2.1, h.2.2.1, h.2.2.2 2000 (by decide)⟩

/-- Claim C9 (counterexample): the identity-missing failure and the
wrong-password failure both return 401 with `error = "Invalid credentials"`,
but their `detail` fields differ, so the two responses are not equal and the
caller can tell whether the identity exists. -/
theorem c9_failure_responses_differ :
    (login c9Db 0 "NO-SUCH-CODE" "whatever" none "" 1 2).2 =
      .err 401 "Invalid credentials" "User not found or account inactive" ∧
    (login c9Db 0 "EMP-CODE-9" "wrong" none "" 1 2).2 =
      .err 401 "Invalid credentials" "Incorrect password" ∧
    (login c9Db 0 "NO-SUCH-CODE" "whatever" none "" 1 2).2 ≠
      (login c9Db 0 "EMP-CODE-9" "wrong" none "" 1 2).2 := by
  decide

/-- Claim C9 (amended): both failed-login cases return status 401 with the
same top-level `error` string `"Invalid credentials"`, but the `detail`
member differs between the identity-missing case
(`"User not found or account inactive"`) and the wrong-password case
(`"Incorrect password"`), so the full message contents are distinguishable. -/
theorem c9_amended_same_error_distinct_detail
    (db1 db2 : AuthDB) (now1 now2 j1 j2 j3 j4 : Nat) (code1 code2 pw1 pw2 : String)
    (ip1 ip2 : Option String) (ua1 ua2 : String) (emp : Employee) (cred : UserCredentials)
    (h1 : db1.employees.find?
      (fun e => e.employee_code == code1 && e.is_active && !e.is_deleted) = none)
    (h2 : db1.superadmins.find?
      (fun s => s.superadmin_code == code1 && s.is_active && !s.is_deleted) = none)
    (h3 : db2.employees.find?
      (fun e => e.employee_code == code2 && e.is_active && !e.is_deleted) = some emp)
    (h4 : emp.is_superadmin = false)
    (h5 : db2.credentials.find?
      (fun c => c.employee == some emp.id && !c.is_deleted) = some cred)
    (h6 : cred.is_locked now2 = false)
    (h7 : check_password pw2 cred.password_hash = false) :
    (login db1 now1 code1 pw1 ip1 ua1 j1 j2).2 =
      .err 401 "Invalid credentials" "User not found or account inactive" ∧
    (login db2 now2 code2 pw2 ip2 ua2 j3 j4).2 =
      .err 401 "Invalid credentials" "Incorrect password" ∧
    ("User not found or account inactive" : String) ≠ "Incorrect password" := by
  refine ⟨?_, ?_, by decide⟩
  · simp [login, h1, h2]
  · simp only [login, h3]
    simp [Principal.attr_is_superadmin, h4, h5, h6, h7]

/-- Witness for the amended C9 on the concrete scenario. -/
theorem c9_amended_same_error_distinct_detail_witness :
    (login c9Db 0 "NO-SUCH-CODE" "whatever" none "" 1 2).2 =
      .err 401 "Invalid credentials" "User not found or account inactive" ∧
    (login c9Db 0 "EMP-CODE-9" "wrong" none "" 1 2).2 =
      .err 401 "Invalid credentials" "Incorrect password" ∧
    ("User not found or account inactive" : String) ≠ "Incorrect password" :=
  c9_amended_same_error_distinct_detail c9Db c9Db 0 0 1 2 1 2
    "NO-SUCH-CODE" "EMP-CODE-9" "whatever" "wrong" none none "" ""
    c9Employee c9Credential
    (by decide) (by decide) (by decide) (by decide) (by decide) (by decide) (by decide)

/-- Claim C10 (counterexample): a superadmin login with the correct password
and an unlocked credential does fail with an unhandled error, but not at the
refresh-token-recording step the claim names: because `SuperAdmin` defines no
`is_superadmin` attribute, `getattr` yields `False` and the credentials
lookup filters `employee=<SuperAdmin>`, which the ORM rejects with a
`ValueError` before the password is ever verified — the database is left
untouched and the `RefreshToken` creation (whose `superadmin` keyword would
indeed raise `TypeError`) is never reached. -/
theorem c10_superadmin_login_fails_at_credentials_lookup :
    (login c10Db 0 "S-25-0001" "superpw" none "" 1 2).2 =
      .unhandled mustBeEmployeeInstanceError ∧
    (login c10Db 0 "S-25-0001" "superpw" none "" 1 2).2 ≠
      .unhandled refreshCreateKwargError ∧
    (login c10Db 0 "S-25-0001" "superpw" none "" 1 2).1 = c10Db := by
  decide

/-- Claim C10 (amended): whenever the login code resolves to a SuperAdmin
(no matching employee), the login operation raises an unhandled `ValueError`
at the credentials lookup — before any password verification or state
change — and therefore never returns a token pair. -/
theorem c10_amended_superadmin_login_unhandled (db : AuthDB) (now j1 j2 : Nat)
    (code pw : String) (ip : Option String) (ua : String) (sa : SuperAdmin)
    (h1 : db.employees.find?
      (fun e => e.employee_code == code && e.is_active && !e.is_deleted) = none)
    (h2 : db.superadmins.find?
      (fun s => s.superadmin_code == code && s.is_active && !s.is_deleted) = some sa) :
    (login db now code pw ip ua j1 j2).2 = .unhandled mustBeEmployeeInstanceError ∧
    (login db now code pw ip ua j1 j2).1 = db := by
  simp [login, h1, h2, Principal.attr_is_superadmin]

/-- Witness for the amended C10 on the concrete scenario. -/
theorem c10_amended_superadmin_login_unhandled_witness :
    (login c10Db 0 "S-25-0001" "superpw" none "" 1 2).2 =
      .unhandled mustBeEmployeeInstanceError ∧
    (login c10Db 0 "S-25-0001" "superpw" none "" 1 2).1 = c10Db :=
  c10_amended_superadmin_login_unhandled c10Db 0 1 2 "S-25-0001" "superpw" none ""
    c10SuperAdmin (by decide) (by decide)

end AuthService

namespace Employees

/-- Claim C3: the allocator is well-behaved up to the padding boundary
(`IAK-9999` yields the fresh, larger `IAK-10000`), but on the very next
allocation the Python string maximum of the table is still `IAK-9999`
(since `"IAK-10000" < "IAK-9999"` in string order), so the allocator
re-issues `IAK-10000` — an identifier already present, violating
uniqueness and the model's own `unique=True` constraint on `employee_id`. -/
theorem c3_allocation_past_padding_boundary_repeats :
    nextEmployeeId ["IAK-9998", "IAK-9999"] = some "IAK-10000" ∧
    pyStrLt "IAK-10000" "IAK-9999" = true ∧
    nextEmployeeId ["IAK-9998", "IAK-9999", "IAK-10000"] = some "IAK-10000" ∧
    "IAK-10000" ∈ ["IAK-9998", "IAK-9999", "IAK-10000"] := by
  decide

/-- Claim C6 (counterexample): for an assignment with a branch whose
department is global, the save composes the code with the *department* code
(`HR`), not the branch code (`C01`) the claim promises — the source checks
`department.is_global` before ever looking at the branch. -/
theorem c6_global_department_code_beats_branch :
    resolveUnitCode c6Dept (some "C01") none = "HR" ∧
    resolveUnitCodeClaim c6Dept (some "C01") none = "C01" ∧
    resolveUnitCode c6Dept (some "C01") none ≠ resolveUnitCodeClaim c6Dept (some "C01") none ∧
    employeeCodeOf (employeeAssignmentSave c6State c6Assign).1 1 = some "HR-G-25-T-0001" := by
  decide

/-- Claim C6 (amended): the unit code of a composed staff code resolves as
the department code whenever the department is global (institution-less),
regardless of any branch on the assignment; only for a non-global department
does it fall through branch code → institution code → owning-organization
code → department code. -/
theorem c6_amended_unit_code_priority (dept : Department) (branch institution : Option String) :
    resolveUnitCode dept branch institution = resolveUnitCodeAmended dept branch institution := by
  cases branch <;> cases institution <;> cases h : dept.organization <;>
    simp [resolveUnitCode, resolveUnitCodeAmended, h, Option.orElse]

/-- Claim C7: whenever the recomputed composite code differs from the stored
one, the save persists the new code and then calls
`send_employee_code_notification(self.employee, new_code)` — two positional
arguments for a three-parameter function — so every code change raises
`TypeError` out of `EmployeeAssignment.save`: the notification step fails the
save (though the new code is already persisted), contradicting the
fire-and-forget requirement. -/
theorem c7_notification_call_fails_code_changing_save :
    (employeeAssignmentSave c7State c7Assign).2 = .error notificationTypeError ∧
    employeeCodeOf (employeeAssignmentSave c7State c7Assign).1 1 = some "C02-M-25-T-0001" ∧
    saveNotificationCallArgCount ≠ sendEmployeeCodeNotificationParamCount := by
  decide

/-- Claim C5 (counterexample): a single save of a non-primary assignment
leaves the employee with zero primary assignments, so "exactly one primary
after any sequence of saves" fails. -/
theorem c5_save_can_leave_zero_primaries :
    primaryCount 7 ((employeeAssignmentSave ⟨[], []⟩ c5NonPrimary).1.assignments) = 0 ∧
    primaryCount 7 ((employeeAssignmentSave ⟨[], []⟩ c5NonPrimary).1.assignments) ≠ 1 := by
  decide

/-- Auxiliary: `countP` respects pointwise-equal predicates on the list's members. -/
theorem countP_congr_mem {α : Type} (l : List α) {p q : α → Bool}
    (h : ∀ a ∈ l, p a = q a) : l.countP p = l.countP q := by
  induction l with
  | nil => rfl
  | cons x xs ih =>
    rw [List.countP_cons, List.countP_cons, h x (by simp),
      ih (fun a ha => h a (by simp [ha]))]

/-- Auxiliary: `countP` is monotone along a pointwise implication on the members. -/
theorem countP_le_mem {α : Type} (l : List α) {p q : α → Bool}
    (h : ∀ a ∈ l, p a = true → q a = true) : l.countP p ≤ l.countP q := by
  induction l with
  | nil => simp
  | cons x xs ih =>
    rw [List.countP_cons, List.countP_cons]
    have hxs := ih (fun a ha => h a (List.mem_cons_of_mem _ ha))
    by_cases hp : p x = true
    · rw [if_pos hp, if_pos (h x (List.mem_cons_self x xs) hp)]
      omega
    · rw [if_neg hp]
      split <;> omega

/-- With pairwise-distinct primary keys, at most one row matches a key. -/
theorem countP_pk_le_one (rows : List Assignment) (k : Nat)
    (hnd : (rows.map (·.pk)).Nodup) : rows.countP (fun r => r.pk == k) ≤ 1 := by
  induction rows with
  | nil => simp
  | cons r rest ih =>
    simp only [List.map_cons, List.nodup_cons] at hnd
    rw [List.countP_cons]
    by_cases h : (r.pk == k) = true
    · have hzero : rest.countP (fun r => r.pk == k) = 0 := by
        rw [List.countP_eq_zero]
        intro x hx hpk
        simp only [beq_iff_eq] at h hpk
        exact hnd.1 (by rw [h, ← hpk]; exact List.mem_map_of_mem (·.pk) hx)
      simp [h, hzero]
    · have := ih hnd.2
      simp [h]
      omega

/-- With pairwise-distinct primary keys, a key that occurs occurs exactly
once. -/
theorem countP_pk_eq_one (rows : List Assignment) (k : Nat)
    (hnd : (rows.map (·.pk)).Nodup)
    (hany : rows.any (fun r => r.pk == k) = true) :
    rows.countP (fun r => r.pk == k) = 1 := by
  have hle := countP_pk_le_one rows k hnd
  have hpos : 0 < rows.countP (fun r => r.pk == k) := by
    rw [List.countP_pos_iff]
    obtain ⟨x, hx, hpk⟩ := List.any_eq_true.mp hany
    exact ⟨x, hx, hpk⟩
  omega

/-- Demotion never changes a row's primary key. -/
theorem demoteF_pk (a r : Assignment) : (demoteF a r).pk = r.pk := by
  unfold demoteF; split <;> rfl

/-- Replacement by primary key never changes a row's primary key. -/
theorem upsertF_pk (a r : Assignment) : (upsertF a r).pk = r.pk := by
  unfold upsertF
  split
  · next h => exact (beq_iff_eq.mp h).symm
  · rfl

/-- The demotion pass leaves the list of primary keys unchanged. -/
theorem demoteOthers_pkList (a : Assignment) (rows : List Assignment) :
    (demoteOthers a rows).map (·.pk) = rows.map (·.pk) := by
  unfold demoteOthers
  rw [List.map_map]
  exact List.map_congr_left (fun r _ => demoteF_pk a r)

/-- Replacement leaves a row with a different key untouched. -/
theorem upsertF_of_ne (a r : Assignment) (h : (r.pk == a.pk) = false) :
    upsertF a r = r := by
  simp [upsertF, h]

/-- Replacement substitutes the saved row at its key. -/
theorem upsertF_of_eq (a r : Assignment) (h : (r.pk == a.pk) = true) :
    upsertF a r = a := by
  simp [upsertF, h]

/-- After demotion, a row that is still a primary of the saved assignment's
employee must be the row being saved. -/
theorem demoteF_primary_pred (a r : Assignment) :
    isPrimaryFor a.employee (demoteF a r) =
      (isPrimaryFor a.employee r && r.pk == a.pk) := by
  unfold isPrimaryFor demoteF
  by_cases h1 : (r.employee == a.employee) = true <;>
    by_cases h2 : (r.pk == a.pk) = true <;>
      cases h3 : r.is_deleted <;> simp_all [bne]

/-- Demotion does not touch the primary flag seen by a different employee. -/
theorem demoteF_other_pred (e : Nat) (a r : Assignment) (hne : e ≠ a.employee) :
    isPrimaryFor e (demoteF a r) = isPrimaryFor e r := by
  unfold isPrimaryFor demoteF
  split
  · next h =>
    have h1 : (r.employee == a.employee) = true := by
      simp only [Bool.and_eq_true] at h
      exact h.1.1
    have h1e : r.employee = a.employee := beq_iff_eq.mp h1
    have h2 : (r.employee == e) = false := by
      simp only [beq_eq_false_iff_ne]
      omega
    simp [h2]
  · rfl

/-- The assignments component written by `EmployeeAssignment.save` is the
demote-then-upsert of the previous assignments, whatever else the save does
or raises. -/
theorem save_assignments (st : HrState) (a : Assignment) :
    (employeeAssignmentSave st a).1.assignments =
      upsertAssignment (if a.is_primary then demoteOthers a st.assignments else st.assignments) a :=
  rfl

/-- Preservation of primary-key distinctness by one save. -/
theorem save_pk_nodup (rows : List Assignment) (a : Assignment)
    (hnd : (rows.map (·.pk)).Nodup) :
    (((upsertAssignment (if a.is_primary then demoteOthers a rows else rows) a).map (·.pk)).Nodup) := by
  set l := if a.is_primary then demoteOthers a rows else rows with hl
  have hlpk : l.map (·.pk) = rows.map (·.pk) := by
    rw [hl]; cases a.is_primary
    · simp
    · simp [demoteOthers_pkList]
  unfold upsertAssignment
  by_cases hany : (l.any (fun r => r.pk == a.pk)) = true
  · rw [if_pos hany, List.map_map]
    have : l.map ((·.pk) ∘ upsertF a) = l.map (·.pk) :=
      List.map_congr_left (fun r _ => upsertF_pk a r)
    rw [this, hlpk]; exact hnd
  · rw [if_neg hany, List.map_append]
    have hnotmem : a.pk ∉ l.map (·.pk) := by
      intro hmem
      obtain ⟨r, hr, hpk⟩ := List.mem_map.mp hmem
      exact hany (List.any_eq_true.mpr ⟨r, hr, beq_iff_eq.mpr hpk⟩)
    simp only [List.map_cons, List.map_nil]
    rw [List.nodup_append]
    refine ⟨by rw [hlpk]; exact hnd, List.nodup_singleton _, ?_⟩
    intro x hx
    simp only [List.mem_singleton]
    intro hxa
    exact hnotmem (hxa ▸ hx)

/-- One save keeps every employee at most one primary assignment. -/
theorem primaryCount_save_le (rows : List Assignment) (a : Assignment) (e : Nat)
    (hnd : (rows.map (·.pk)).Nodup) (hle : primaryCount e rows ≤ 1) :
    primaryCount e (upsertAssignment (if a.is_primary then demoteOthers a rows else rows) a) ≤ 1 := by
  unfold primaryCount at *
  by_cases hA : a.is_primary = true ∧ e = a.employee
  · -- the saved row is a primary for employee `e`: after demotion, every
    -- remaining `e`-primary carries the saved primary key
    rw [if_pos hA.1]
    have hndl : ((demoteOthers a rows).map (·.pk)).Nodup := by
      rw [demoteOthers_pkList]; exact hnd
    have hKey : ∀ r ∈ demoteOthers a rows, isPrimaryFor e r = true → (r.pk == a.pk) = true := by
      intro r hr hper
      obtain ⟨r0, hr0, hr0eq⟩ := List.mem_map.mp hr
      subst hr0eq
      rw [hA.2, demoteF_primary_pred a r0] at hper
      rw [demoteF_pk]
      simp only [Bool.and_eq_true] at hper
      exact hper.2
    unfold upsertAssignment
    by_cases hany : ((demoteOthers a rows).any (fun r => r.pk == a.pk)) = true
    · rw [if_pos hany, List.countP_map]
      calc (demoteOthers a rows).countP (isPrimaryFor e ∘ upsertF a)
          ≤ (demoteOthers a rows).countP (fun r => r.pk == a.pk) := by
            apply countP_le_mem
            intro r hr h
            simp only [Function.comp_apply] at h
            cases hpk : (r.pk == a.pk) with
            | true => rfl
            | false =>
              rw [upsertF_of_ne a r hpk] at h
              rw [hKey r hr h] at hpk
              exact hpk.symm
        _ ≤ 1 := countP_pk_le_one _ a.pk hndl
    · rw [if_neg hany, List.countP_append, List.countP_cons, List.countP_nil]
      have hzero : (demoteOthers a rows).countP (isPrimaryFor e) = 0 := by
        rw [List.countP_eq_zero]
        intro r hr hper
        exact hany (List.any_eq_true.mpr ⟨r, hr, hKey r hr hper⟩)
      rw [hzero]
      split <;> omega
  · -- otherwise the saved row itself is not an `e`-primary
    have hpa : isPrimaryFor e a = false := by
      unfold isPrimaryFor
      rcases not_and_or.mp hA with h | h
      · have hb : a.is_primary = false := by
          cases hb : a.is_primary
          · rfl
          · exact absurd hb h
        simp [hb]
      · have hb : (a.employee == e) = false := by
          simp only [beq_eq_false_iff_ne]
          omega
        simp [hb]
    have hcount_l :
        (if a.is_primary then demoteOthers a rows else rows).countP (isPrimaryFor e) ≤ 1 := by
      by_cases hp : a.is_primary = true
      · rw [if_pos hp]
        have he : e ≠ a.employee := by
          rcases not_and_or.mp hA with h | h
          · exact absurd hp h
          · exact h
        unfold demoteOthers
        rw [List.countP_map]
        calc rows.countP (isPrimaryFor e ∘ demoteF a)
            = rows.countP (isPrimaryFor e) := by
              apply countP_congr_mem
              intro r _
              simp only [Function.comp_apply]
              exact demoteF_other_pred e a r he
          _ ≤ 1 := hle
      · rw [if_neg hp]
        exact hle
    unfold upsertAssignment
    by_cases hany :
        ((if a.is_primary then demoteOthers a rows else rows).any (fun r => r.pk == a.pk)) = true
    · rw [if_pos hany, List.countP_map]
      calc (if a.is_primary then demoteOthers a rows else rows).countP
            (isPrimaryFor e ∘ upsertF a)
          ≤ (if a.is_primary then demoteOthers a rows else rows).countP (isPrimaryFor e) := by
            apply countP_le_mem
            intro r _ h
            simp only [Function.comp_apply] at h
            cases hpk : (r.pk == a.pk) with
            | true =>
              rw [upsertF_of_eq a r hpk, hpa] at h
              exact absurd h (by simp)
            | false =>
              rwa [upsertF_of_ne a r hpk] at h
        _ ≤ 1 := hcount_l
    · rw [if_neg hany, List.countP_append, List.countP_cons, List.countP_nil, hpa]
      have := hcount_l
      simp only [Bool.false_eq_true, if_false]
      omega

/-- A save with `is_primary = true` on a non-deleted row leaves its employee
with exactly one primary assignment: the saved one. -/
theorem primaryCount_save_primary (rows : List Assignment) (a : Assignment)
    (hnd : (rows.map (·.pk)).Nodup)
    (hp : a.is_primary = true) (hdel : a.is_deleted = false) :
    primaryCount a.employee (upsertAssignment (demoteOthers a rows) a) = 1 := by
  unfold primaryCount
  have hpa : isPrimaryFor a.employee a = true := by
    unfold isPrimaryFor
    simp [hp, hdel]
  have hndl : ((demoteOthers a rows).map (·.pk)).Nodup := by
    rw [demoteOthers_pkList]; exact hnd
  have hKey : ∀ r ∈ demoteOthers a rows,
      isPrimaryFor a.employee r = true → (r.pk == a.pk) = true := by
    intro r hr hper
    obtain ⟨r0, hr0, hr0eq⟩ := List.mem_map.mp hr
    subst hr0eq
    rw [demoteF_primary_pred a r0] at hper
    rw [demoteF_pk]
    simp only [Bool.and_eq_true] at hper
    exact hper.2
  unfold upsertAssignment
  by_cases hany : ((demoteOthers a rows).any (fun r => r.pk == a.pk)) = true
  · rw [if_pos hany, List.countP_map]
    calc (demoteOthers a rows).countP (isPrimaryFor a.employee ∘ upsertF a)
        = (demoteOthers a rows).countP (fun r => r.pk == a.pk) := by
          apply countP_congr_mem
          intro r hr
          simp only [Function.comp_apply]
          cases hpk : (r.pk == a.pk) with
          | true => rw [upsertF_of_eq a r hpk, hpa]
          | false =>
            rw [upsertF_of_ne a r hpk]
            cases hper : isPrimaryFor a.employee r with
            | true =>
              rw [hKey r hr hper] at hpk
              exact hpk
            | false => rfl
      _ = 1 := countP_pk_eq_one _ a.pk hndl hany
  · rw [if_neg hany, List.countP_append, List.countP_cons, List.countP_nil]
    have hzero : (demoteOthers a rows).countP (isPrimaryFor a.employee) = 0 := by
      rw [List.countP_eq_zero]
      intro r hr hper
      exact hany (List.any_eq_true.mpr ⟨r, hr, hKey r hr hper⟩)
    rw [hzero, hpa]
    simp

/-- One save preserves the reachability invariant. -/
theorem goodRows_save (st : HrState) (a : Assignment)
    (h : GoodRows st.assignments) : GoodRows (employeeAssignmentSave st a).1.assignments := by
  rw [save_assignments]
  exact ⟨save_pk_nodup st.assignments a h.1,
    fun e => primaryCount_save_le st.assignments a e h.1 (h.2 e)⟩

/-- Any sequence of saves starting from the invariant preserves it. -/
theorem goodRows_saveSeq (saves : List Assignment) :
    ∀ st : HrState, GoodRows st.assignments → GoodRows (saveSeq st saves).assignments := by
  induction saves with
  | nil => intro st h; exact h
  | cons a rest ih =>
    intro st h
    exact ih _ (goodRows_save st a h)

/-- Claim C5 (amended): after any sequence of `EmployeeAssignment.save`
operations starting from an assignment-free state, every employee has *at
most* one non-deleted assignment with `is_primary = true` — and immediately
after a save whose row is primary and not deleted, its employee has exactly
one.  "Exactly one" fails in general: a save with `is_primary = false` can
leave an employee with zero primaries (see the C5 counterexample). -/
theorem c5_amended_at_most_one_primary (emps : List EmployeeRec)
    (saves : List Assignment) (e : Nat) (a : Assignment) :
    primaryCount e (saveSeq ⟨emps, []⟩ saves).assignments ≤ 1 ∧
    (a.is_primary = true → a.is_deleted = false →
      primaryCount a.employee
        ((employeeAssignmentSave (saveSeq ⟨emps, []⟩ saves) a).1.assignments) = 1) := by
  have hgood : GoodRows (saveSeq ⟨emps, []⟩ saves).assignments :=
    goodRows_saveSeq saves ⟨emps, []⟩ ⟨List.nodup_nil, fun _ => by simp [primaryCount]⟩
  refine ⟨hgood.2 e, fun hp hdel => ?_⟩
  rw [save_assignments, if_pos hp]
  exact primaryCount_save_primary _ a hgood.1 hp hdel

/-- Witness for the amended C5: after saving one non-primary assignment,
employee 7 has at most one (in fact zero) primaries; saving a primary
assignment then leaves exactly one. -/
theorem c5_amended_at_most_one_primary_witness :
    primaryCount 7 (saveSeq ⟨[], []⟩ [c5NonPrimary]).assignments ≤ 1 ∧
    primaryCount 7
      ((employeeAssignmentSave (saveSeq ⟨[], []⟩ [c5NonPrimary]) c5Primary).1.assignments) = 1 := by
  have h := c5_amended_at_most_one_primary [] [c5NonPrimary] 7 c5Primary
  exact ⟨h.1, h.2 rfl rfl⟩

end Employees
